import Mathlib

/-!
Shallow embedding of the `smartclient` package (Python 2):
`smartclient/client.py` (Retriable, SmartClient.retry),
`smartclient/breaker.py` (CircuitBreakerSet.test / all_closed),
`smartclient/exceptions.py`,
`smartclient/service.py` (default_hostname_adapter, BackendServiceProvider.get_host,
UpdateableIterator).

Machine conventions: Python exceptions become an explicit `PyExc` error type and
fallible code returns `Except PyExc _`; Python `None`/values become `PyVal`;
dicts of keyword arguments become association lists; the external `circuit`
library's per-host breaker state is modelled at its interface boundary as a
boolean open/closed flag per host key, exactly as the spec describes the
monitored scope (entering the scope signals `CircuitOpenError` when the host's
breaker is open, otherwise the operation runs).
-/

/-- Exceptions of the program. `opError k` stands for an arbitrary error of kind
`k` raised by the wrapped operation (kinds are classified against the configured
countable `error_types` list). `nameErrorUnbound` models a Python `NameError`
from evaluating an undefined name; `attributeError` a failed attribute lookup;
`typeError` an unsupported-operand error. -/
inductive PyExc : Type
  | NoHostsAvailableException : PyExc
  | AllHostsUnreachableException : PyExc
  | MaxRetriesReached : PyExc
  | CircuitOpenError : PyExc
  | nameErrorUnbound : PyExc
  | attributeError : PyExc
  | typeError : PyExc
  | keyError : PyExc
  | opError (k : Nat) : PyExc
  deriving DecidableEq, Repr

/-- Python values returned by operations: `none` is Python's `None`. -/
inductive PyVal : Type
  | none : PyVal
  | int (n : Int) : PyVal
  | str (s : String) : PyVal
  deriving DecidableEq, Repr

/-- Keyword-argument dictionaries, as association lists in insertion order. -/
abbrev Kwargs : Type := List (String × PyVal)

/-- Embedding of `dict.__setitem__`: overwrite the value at an existing key,
otherwise append the binding. -/
def dictSet (d : Kwargs) (k : String) (v : PyVal) : Kwargs :=
  if d.any (fun p => p.1 == k) then
    d.map (fun p => if p.1 == k then (k, v) else p)
  else
    d ++ [(k, v)]

/-- Embedding of `dict.update`: apply each binding of `nk` in order. -/
def kwUpdate (d : Kwargs) (nk : Kwargs) : Kwargs :=
  nk.foldl (fun acc p => dictSet acc p.1 p.2) d

/-- Embedding of `client.Retriable`: the deferred invocation captured by
`__init__` — the function, its positional arguments and its keyword arguments.
The function itself is modelled as a Lean function from the positional
arguments and the merged keyword arguments to either an operation result or a
raised error kind. -/
structure Retriable : Type where
  func : List PyVal → Kwargs → Except Nat PyVal
  args : List PyVal
  kwargs : Kwargs

/-- Embedding of `Retriable.__call__`. The method body is
`kwargs = self.kwargs.copy(); kwargs.update(new_kwargs);
return self.func(*self.args, **kwargs)`: the local starts from a copy of the
stored dict, is updated with the overrides, and the stored fields of `self` are
never assigned, so the state handed back is the incoming one. -/
def Retriable.call (r : Retriable) (new_kwargs : Kwargs) :
    Except Nat PyVal × Retriable :=
  let kwargs := r.kwargs
  let kwargs := kwUpdate kwargs new_kwargs
  (r.func r.args kwargs, r)

/-- Repeated invocation of one `Retriable` with a list of per-call override
dictionaries, threading the object state through each call as Python does. -/
def Retriable.callSeq (r : Retriable) :
    List Kwargs → List (Except Nat PyVal) × Retriable
  | [] => ([], r)
  | nk :: rest =>
    let step := r.call nk
    let tail := step.2.callSeq rest
    (step.1 :: tail.1, tail.2)

/-- Embedding of `breaker.CircuitBreakerSet` state at the interface the claims
use: the map from host key to that host's breaker, recorded as whether the
breaker is currently open. -/
structure CircuitBreakerSet : Type where
  circuits : List (String × Bool)
  deriving DecidableEq, Repr

/-- Embedding of one breaker's `test()` from the external `circuit` library at
its specified boundary: it raises `CircuitOpenError` when the breaker is open
and returns normally otherwise. -/
def circuitTest (isOpen : Bool) : Except PyExc Unit :=
  if isOpen then .error .CircuitOpenError else .ok ()

/-- Evaluation of the list comprehension
`[circuit.test() for circuit in self.circuits.values()]`: each breaker's
`test()` runs in order and the first raised `CircuitOpenError` aborts the
comprehension. -/
def circuitsTest : List (String × Bool) → Except PyExc (List Unit)
  | [] => .ok []
  | c :: rest =>
    match circuitTest c.2 with
    | .error e => .error e
    | .ok u =>
      match circuitsTest rest with
      | .error e => .error e
      | .ok us => .ok (u :: us)

/-- Embedding of `CircuitBreakerSet.test`: the comprehension above over
`self.circuits.values()`. -/
def CircuitBreakerSet.test (s : CircuitBreakerSet) : Except PyExc (List Unit) :=
  circuitsTest s.circuits

/-- Embedding of `CircuitBreakerSet.all_closed`. The Python body is
`try: self.test() except circuit.CircuitOpenError: return False` with no
statement after the handler: when `test()` raises, the method returns `False`;
when `test()` returns normally, control falls off the end of the method and
Python returns `None`. `circuitTest` can only raise `CircuitOpenError`, so the
handler covers every error `test` produces. The result is `Option Bool`:
`some false` for Python `False`, `none` for Python `None`. -/
def CircuitBreakerSet.all_closed (s : CircuitBreakerSet) : Option Bool :=
  match s.test with
  | .error _ => some false
  | .ok _ => none

/-- Python truthiness of an optional boolean: `None` and `False` are falsy. -/
def pyTruthy : Option Bool → Bool
  | none => false
  | some b => b

/-- Observable events of one `SmartClient.retry` run, in order: `invoke` when
the monitored scope actually runs the operation against a host on attempt `i`,
`circuitOpenSkip` when attempt `i` is skipped because the host's breaker was
open (`CircuitOpenError` caught), `sleepBackoff` when the `time.sleep` on the
backoff branch runs after attempt `i`. -/
inductive Event : Type
  | invoke (i : Nat) (host : String) : Event
  | circuitOpenSkip (i : Nat) (host : String) : Event
  | sleepBackoff (i : Nat) : Event
  deriving DecidableEq, Repr

/-- Environment of one `SmartClient.retry` call: the keyword parameters of
`retry`, the client's configured countable `error_types` (the
`self.breakers.error_types` tuple of the `except` clause), the host source
(`self.get_hostname()` at attempt `i`), and the breaker state the external
`circuit` library exposes at attempt `i` — `breakerOpen i h` is the
monitored-scope entry check for host `h`, and `breakers i` is the full set the
caught-`CircuitOpenError` branch consults through `all_closed`. -/
structure RetryEnv : Type where
  max_tries : Nat
  backoff : Option Nat
  send_host : Bool
  error_types : List Nat
  getHost : Nat → Except PyExc String
  breakerOpen : Nat → String → Bool
  breakers : Nat → CircuitBreakerSet

/-- Python truthiness of the `backoff` argument (`if backoff and ...`): absent
(`None`) and zero are falsy. -/
def backoffTruthy : Option Nat → Bool
  | none => false
  | some d => decide (d ≠ 0)

/-- Keyword arguments the retry loop passes to the retriable on an attempt:
`retriable(host=host)` when `send_host` is set, `retriable()` otherwise. -/
def attemptKwargs (env : RetryEnv) (host : String) : Kwargs :=
  if env.send_host then [("host", PyVal.str host)] else []

/-- Events of the `if backoff and i < max_tries: time.sleep(...)` statement at
the end of the loop body after attempt `i`. -/
def sleepEvents (env : RetryEnv) (i : Nat) : List Event :=
  if backoffTruthy env.backoff && decide (i < env.max_tries) then
    [Event.sleepBackoff i]
  else
    []

/-- Embedding of the attempt loop of `SmartClient.retry` over the remaining
attempt indices. Per iteration: `host = self.get_hostname()` (errors propagate
uncaught), then the monitored scope — if the host's breaker is open the scope
raises `CircuitOpenError`, which is caught; the handler evaluates
`if self.breakers.all_closed():` and, when truthy, executes
`raise AllHostsUnreachable(...)`, a name the module never defines (the import
is `AllHostsUnreachableException`), hence a `NameError`; otherwise the loop
falls through to the backoff statement and continues. If the breaker is closed
the operation is invoked; a normal result returns immediately; a raised error
of a kind in `error_types` is silenced and the loop falls through to the
backoff statement; any other error propagates uncaught. An exhausted index
list raises `MaxRetriesReached`. -/
def retryGo (env : RetryEnv) (r : Retriable) :
    List Nat → Except PyExc PyVal × List Event
  | [] => (.error .MaxRetriesReached, [])
  | i :: rest =>
    match env.getHost i with
    | .error e => (.error e, [])
    | .ok host =>
      if env.breakerOpen i host then
        if pyTruthy (env.breakers i).all_closed then
          (.error .nameErrorUnbound, [])
        else
          let tail := retryGo env r rest
          (tail.1, Event.circuitOpenSkip i host :: (sleepEvents env i ++ tail.2))
      else
        let step := r.call (attemptKwargs env host)
        match step.1 with
        | .ok v => (.ok v, [Event.invoke i host])
        | .error k =>
          if k ∈ env.error_types then
            let tail := retryGo env step.2 rest
            (tail.1, Event.invoke i host :: (sleepEvents env i ++ tail.2))
          else
            (.error (.opError k), [Event.invoke i host])

/-- Embedding of `SmartClient.retry` applied to a `Retriable`:
`for i in xrange(1, max_tries + 1)` over the loop body above. -/
def retry (env : RetryEnv) (r : Retriable) : Except PyExc PyVal × List Event :=
  retryGo env r (List.range' 1 env.max_tries)

/-- Number of times the operation was actually invoked during a run. -/
def countInvokes (tr : List Event) : Nat :=
  tr.countP (fun e => match e with | Event.invoke _ _ => true | _ => false)

/-- Embedding of calling a function decorated with `@client.retry`: the
`wrapper` closure builds `Retriable(retriable, *args, **kwargs)` and executes
`self.retry(_retriable, ...)` as a bare statement — its value is discarded and
the wrapper returns `None`; exceptions propagate unchanged. -/
def retryDecoratedCall (env : RetryEnv)
    (func : List PyVal → Kwargs → Except Nat PyVal)
    (args : List PyVal) (kwargs : Kwargs) : Except PyExc PyVal × List Event :=
  let res := retry env (Retriable.mk func args kwargs)
  (res.1.map (fun _ => PyVal.none), res.2)

/-- Embedding of a host configuration mapping as consumed by
`service.default_hostname_adapter`: the `address`, `port` and `sslPort` keys,
each possibly absent (`config[key]` on an absent key raises `KeyError`,
`config.get(key, d)` yields the default). -/
structure HostConfig : Type where
  address : Option String
  port : Option Nat
  sslPort : Option Nat
  deriving DecidableEq, Repr

/-- Embedding of `service.default_hostname_adapter`:
`port = config.get('sslPort', 0); if port == 0: port = config['port']`, then a
format string selecting `https` when `config.get('sslPort', 0) != 0` and
`http` otherwise, interpolating `config['address']` and the chosen port.
Lookups of absent mandatory keys raise `KeyError`, in the source's evaluation
order (`port` before `address`). -/
def default_hostname_adapter (config : HostConfig) : Except PyExc String :=
  let port0 := config.sslPort.getD 0
  let portE : Except PyExc Nat :=
    if port0 = 0 then
      match config.port with
      | some p => .ok p
      | none => .error .keyError
    else
      .ok port0
  match portE with
  | .error e => .error e
  | .ok port =>
    let scheme := if config.sslPort.getD 0 ≠ 0 then "https" else "http"
    match config.address with
    | some a => .ok (scheme ++ "://" ++ a ++ ":" ++ Nat.repr port)
    | none => .error .keyError

/-- Embedding of `service.UpdateableIterator`: the current item list, the
position of the `itertools.cycle` iterator over it, and the exception class
substituted for `StopIteration` (the provider passes
`NoHostsAvailableException`). -/
structure UpdateableIterator (α : Type) : Type where
  items : List α
  cursor : Nat
  stop_exc : PyExc

/-- Embedding of `UpdateableIterator.__init__` with the given items. -/
def UpdateableIterator.init {α : Type} (items : List α) (stop_exc : PyExc) :
    UpdateableIterator α :=
  ⟨items, 0, stop_exc⟩

/-- Embedding of `UpdateableIterator.modify`: swap in the new item list and a
fresh `itertools.cycle` over it. -/
def UpdateableIterator.modify {α : Type} (t : UpdateableIterator α)
    (items : List α) : UpdateableIterator α :=
  { t with items := items, cursor := 0 }

/-- Embedding of `UpdateableIterator.next`: `next(self._iter)` on
`itertools.cycle(items)` yields the items cyclically forever when `items` is
non-empty, and raises `StopIteration` at once when `items` is empty; the
handler re-raises `self._stop_exc` in its place. -/
def UpdateableIterator.next {α : Type} (t : UpdateableIterator α) :
    Except PyExc (α × UpdateableIterator α) :=
  match h : t.items with
  | [] => .error t.stop_exc
  | _ :: _ =>
    .ok (t.items.get ⟨t.cursor % t.items.length,
           Nat.mod_lt _ (by rw [h]; exact Nat.succ_pos _)⟩,
         { t with cursor := t.cursor + 1 })

/-- Embedding of the registry backend at the interface `service.py` consumes:
the watching capability flag, the staleness threshold, and the node-reading
operations. -/
structure Backend : Type where
  supports_watching : Bool
  update_threshold : Nat
  get_children : String → List String
  get_node : String → HostConfig

/-- Embedding of the `service.BackendServiceProvider` state: the fields
assigned by `__init__` and mutated by `_load`, `_reset_hosts` and `_watch`.
`watcher` records whether `self._watcher` is set; `last_updated` is
`self._last_updated` (initially `None`); `hosts_iter` carries the
`self._hosts` list inside the `UpdateableIterator`. `shuffle` is an oracle
standing for `random.shuffle`'s reordering of a fetched host list. -/
structure BackendServiceProvider : Type where
  name : String
  backend : Backend
  node : String
  watcher : Bool
  loaded : Bool
  hosts_iter : UpdateableIterator HostConfig
  last_updated : Option Nat
  shuffle : List HostConfig → List HostConfig

/-- Embedding of `BackendServiceProvider.__init__`. -/
def BackendServiceProvider.init (name : String) (backend : Backend)
    (shuffle : List HostConfig → List HostConfig) : BackendServiceProvider :=
  { name := name
    backend := backend
    node := name
    watcher := false
    loaded := false
    hosts_iter := UpdateableIterator.init [] PyExc.NoHostsAvailableException
    last_updated := none
    shuffle := shuffle }

/-- Embedding of Python attribute lookup on the provider for time-stamp
attributes: the only time-valued attribute ever assigned (`__init__` line
`self._last_updated = None`, `_reset_hosts` line
`self._last_updated = time.time()`) is named `_last_updated`; looking up any
other name raises `AttributeError`. -/
def BackendServiceProvider.getattrTime (p : BackendServiceProvider)
    (name : String) : Except PyExc (Option Nat) :=
  if name = "_last_updated" then .ok p.last_updated
  else .error .attributeError

/-- Embedding of `BackendServiceProvider._get_hosts`: fetch each child node of
`self._node` from the backend. -/
def BackendServiceProvider.get_hosts (p : BackendServiceProvider) :
    List HostConfig :=
  (p.backend.get_children p.node).map
    (fun child => p.backend.get_node (p.node ++ "/" ++ child))

/-- Embedding of `BackendServiceProvider._reset_hosts`: store the (shuffled)
hosts, rebuild the iterator via `modify`, and stamp `self._last_updated` with
the current time. -/
def BackendServiceProvider.reset_hosts (p : BackendServiceProvider)
    (hosts : List HostConfig) (now : Nat) : BackendServiceProvider :=
  let hosts := p.shuffle hosts
  { p with hosts_iter := p.hosts_iter.modify hosts, last_updated := some now }

/-- Embedding of `BackendServiceProvider._load`. -/
def BackendServiceProvider.load (p : BackendServiceProvider) (now : Nat) :
    BackendServiceProvider :=
  { p.reset_hosts p.get_hosts now with loaded := true }

/-- Embedding of the `BackendServiceProvider._hosts_iterator` property's side
effects: lazy initial `_load`, and one-time `_watch` installation for
watching-capable backends (the watch callback's later invocations are external
events, not part of one `get_host` call). -/
def BackendServiceProvider.hosts_iterator_access (p : BackendServiceProvider)
    (now : Nat) : BackendServiceProvider :=
  let p := if p.loaded then p else p.load now
  if p.backend.supports_watching && !p.watcher then { p with watcher := true }
  else p

/-- Embedding of `BackendServiceProvider.get_host`. For a backend without
watching support the source first evaluates
`time.time() - self._last_udpated > self.backend.update_threshold`: the read
is of the attribute name with the transposed letters, which is never assigned,
so the lookup raises `AttributeError`; had the name resolved, a `None`
time-stamp would raise `TypeError` from the subtraction, and otherwise a stale
pool is refreshed via `_reset_hosts(self._get_hosts())`. It then returns
`next(self._hosts_iterator)`. -/
def BackendServiceProvider.get_host (p : BackendServiceProvider) (now : Nat) :
    Except PyExc (HostConfig × BackendServiceProvider) :=
  let staleChecked : Except PyExc BackendServiceProvider :=
    if p.backend.supports_watching = false then
      match p.getattrTime "_last_udpated" with
      | .error e => .error e
      | .ok none => .error .typeError
      | .ok (some t) =>
        if now - t > p.backend.update_threshold then
          .ok (p.reset_hosts p.get_hosts now)
        else
          .ok p
    else
      .ok p
  match staleChecked with
  | .error e => .error e
  | .ok q =>
    let q := q.hosts_iterator_access now
    match q.hosts_iter.next with
    | .error e => .error e
    | .ok (h, ti) => .ok (h, { q with hosts_iter := ti })

/-- Embedding of `BackendServiceProvider.get_hostname` with the default
hostname adapter: `self._hostname_adapter(self.get_host())`. -/
def BackendServiceProvider.get_hostname (p : BackendServiceProvider)
    (now : Nat) : Except PyExc (String × BackendServiceProvider) :=
  match p.get_host now with
  | .error e => .error e
  | .ok (h, q) =>
    match default_hostname_adapter h with
    | .error e => .error e
    | .ok s => .ok (s, q)

/-! Helper lemmas shared by the claim theorems. -/

/-- Closed form of the breaker-set comprehension: it raises exactly when some
breaker in the list is open. -/
theorem circuitsTest_eq (l : List (String × Bool)) :
    circuitsTest l =
      if l.any (fun c => c.2) then Except.error PyExc.CircuitOpenError
      else Except.ok (l.map (fun _ => ())) := by
  induction l with
  | nil => rfl
  | cons c rest ih =>
    cases hc : c.2 with
    | true => simp [circuitsTest, circuitTest, hc]
    | false =>
      by_cases hr : rest.any (fun c => c.2) = true
      · simp [circuitsTest, circuitTest, hc, ih, hr]
      · simp at hr
        simp [circuitsTest, circuitTest, hc, ih, hr]

/-- Closed form of `CircuitBreakerSet.all_closed`: Python `False` when some
breaker is open, Python `None` otherwise — never Python `True`. -/
theorem all_closed_eq (s : CircuitBreakerSet) :
    s.all_closed =
      if s.circuits.any (fun c => c.2) then some false else none := by
  unfold CircuitBreakerSet.all_closed CircuitBreakerSet.test
  rw [circuitsTest_eq]
  by_cases h : s.circuits.any (fun c => c.2) = true
  · simp [h]
  · simp at h
    simp [h]

/-- The value of `all_closed` is falsy on every breaker set, so the
`if self.breakers.all_closed():` test in `retry` never succeeds. -/
theorem pyTruthy_all_closed (s : CircuitBreakerSet) :
    pyTruthy s.all_closed = false := by
  rw [all_closed_eq]
  by_cases h : s.circuits.any (fun c => c.2) = true
  · simp [h, pyTruthy]
  · simp at h
    simp [h, pyTruthy]

/-- Backoff-sleep events contain no operation invocation. -/
theorem countInvokes_sleepEvents (env : RetryEnv) (i : Nat) :
    countInvokes (sleepEvents env i) = 0 := by
  unfold sleepEvents countInvokes
  by_cases h : (backoffTruthy env.backoff && decide (i < env.max_tries)) = true
  · rw [if_pos h]
    rfl
  · rw [if_neg h]
    rfl

/-! Claim theorems. -/

/-- C1: with every known breaker open, a caught `CircuitOpenError` does not
abort the loop with `AllHostsUnreachableException`. In this run (one known
host `A`, its breaker open on both attempts, `max_tries = 2`) every attempt is
skipped and `retry` raises `MaxRetriesReached`, never
`AllHostsUnreachableException`: `all_closed()` yields a falsy value whenever a
breaker is open, so the abort branch (whose `raise` also names the undefined
`AllHostsUnreachable`) cannot run. This contradicts the claim, which requires
an immediate `AllHostsUnreachable` abort on this input. -/
theorem retry_all_breakers_open_no_abort :
    retry
      { max_tries := 2, backoff := none, send_host := false, error_types := [],
        getHost := fun _ => .ok "A",
        breakerOpen := fun _ _ => true,
        breakers := fun _ => ⟨[("A", true)]⟩ }
      ⟨fun _ _ => .ok (PyVal.int 0), [], []⟩ =
    (.error PyExc.MaxRetriesReached,
     [Event.circuitOpenSkip 1 "A", Event.circuitOpenSkip 2 "A"]) := by
  rfl

/-- C2: actual behaviour of `CircuitBreakerSet.all_closed`. When at least one
referenced breaker is open it returns Python `False` (as the claim states),
but when no referenced breaker is open it returns Python `None` — control
falls off the end of the method — and never the boolean `True` the claim
requires. -/
theorem all_closed_false_or_none (s : CircuitBreakerSet) :
    ((∃ c ∈ s.circuits, c.2 = true) → s.all_closed = some false)
  ∧ ((∀ c ∈ s.circuits, c.2 = false) → s.all_closed = none)
  ∧ s.all_closed ≠ some true := by
  rw [all_closed_eq]
  refine ⟨fun h => ?_, fun h => ?_, ?_⟩
  · have : s.circuits.any (fun c => c.2) = true := by
      rcases h with ⟨c, hc, hc2⟩
      exact List.any_eq_true.mpr ⟨c, hc, by simp [hc2]⟩
    simp [this]
  · have : s.circuits.any (fun c => c.2) = false := by
      rw [List.any_eq_false]
      intro c hc
      simp [h c hc]
    simp [this]
  · by_cases hb : s.circuits.any (fun c => c.2) = true
    · simp [hb]
    · simp at hb
      simp [hb]

/-- C2 witness: a set holding one closed breaker satisfies the all-closed
hypothesis, and `all_closed` on it evaluates to Python `None`. -/
theorem all_closed_false_or_none_witness :
    (∀ c ∈ [("A", false)], Prod.snd c = false) ∧
    (CircuitBreakerSet.mk [("A", false)]).all_closed = none := by
  exact ⟨by decide, (all_closed_false_or_none ⟨[("A", false)]⟩).2.1 (by decide)⟩

/-- Behaviour of the attempt loop when every listed attempt selects a host, no
breaker is open, and every operation invocation raises a countable error kind:
the loop consumes every attempt, invokes the operation once per attempt, and
ends by raising `MaxRetriesReached`. -/
theorem retryGo_all_countable (env : RetryEnv) (hosts : Nat → String)
    (r : Retriable) (attempts : List Nat)
    (hhost : ∀ i ∈ attempts, env.getHost i = .ok (hosts i))
    (hclosed : ∀ i ∈ attempts, env.breakerOpen i (hosts i) = false)
    (hcount : ∀ i ∈ attempts, ∃ k,
        (r.call (attemptKwargs env (hosts i))).1 = .error k ∧
        k ∈ env.error_types) :
    (retryGo env r attempts).1 = .error PyExc.MaxRetriesReached ∧
    countInvokes (retryGo env r attempts).2 = attempts.length := by
  induction attempts with
  | nil => exact ⟨rfl, rfl⟩
  | cons i rest ih =>
    obtain ⟨k, hk, hkmem⟩ := hcount i (List.mem_cons_self i rest)
    have hh := hhost i (List.mem_cons_self i rest)
    have hc := hclosed i (List.mem_cons_self i rest)
    have hstep : (Retriable.call r (attemptKwargs env (hosts i))).2 = r := rfl
    have ihr := ih
      (fun j hj => hhost j (List.mem_cons_of_mem i hj))
      (fun j hj => hclosed j (List.mem_cons_of_mem i hj))
      (fun j hj => hcount j (List.mem_cons_of_mem i hj))
    simp only [retryGo, hh, hc, hstep, hk, Bool.false_eq_true, if_false,
      if_pos hkmem]
    constructor
    · exact ihr.1
    · simp only [countInvokes, List.countP_cons, List.countP_append]
      have hsleep := countInvokes_sleepEvents env i
      unfold countInvokes at hsleep ihr
      simp [hsleep, ihr.2, Nat.add_comm]

/-- C3: with `max_tries = N ≥ 1`, every attempt selecting a host, no attempt
gated by an open breaker, and every invocation of the operation raising an
error whose kind is in the configured countable set, `retry` invokes the
operation exactly `N` times and then raises `MaxRetriesReached`. -/
theorem retry_countable_exhausts_after_N (env : RetryEnv) (r : Retriable)
    (N : Nat) (hN : 1 ≤ N) (hmax : env.max_tries = N) (hosts : Nat → String)
    (hhost : ∀ i, env.getHost i = .ok (hosts i))
    (hclosed : ∀ i, env.breakerOpen i (hosts i) = false)
    (hcount : ∀ i, ∃ k,
        (r.call (attemptKwargs env (hosts i))).1 = .error k ∧
        k ∈ env.error_types) :
    (retry env r).1 = .error PyExc.MaxRetriesReached ∧
    countInvokes (retry env r).2 = N := by
  unfold retry
  rw [hmax]
  have h := retryGo_all_countable env hosts r (List.range' 1 N)
    (fun i _ => hhost i) (fun i _ => hclosed i) (fun i _ => hcount i)
  simpa [List.length_range'] using h

/-- C3 witness: a client with one host `A`, a closed breaker, a countable
error kind `7` raised on every invocation and `max_tries = 3` performs exactly
three invocations and raises `MaxRetriesReached`. -/
theorem retry_countable_exhausts_after_N_witness :
    1 ≤ 3 ∧
    (retry
      { max_tries := 3, backoff := none, send_host := false, error_types := [7],
        getHost := fun _ => .ok "A",
        breakerOpen := fun _ _ => false,
        breakers := fun _ => ⟨[("A", false)]⟩ }
      ⟨fun _ _ => .error 7, [], []⟩).1 = .error PyExc.MaxRetriesReached ∧
    countInvokes (retry
      { max_tries := 3, backoff := none, send_host := false, error_types := [7],
        getHost := fun _ => .ok "A",
        breakerOpen := fun _ _ => false,
        breakers := fun _ => ⟨[("A", false)]⟩ }
      ⟨fun _ _ => .error 7, [], []⟩).2 = 3 := by
  refine ⟨by decide, ?_⟩
  exact retry_countable_exhausts_after_N
    { max_tries := 3, backoff := none, send_host := false, error_types := [7],
      getHost := fun _ => .ok "A",
      breakerOpen := fun _ _ => false,
      breakers := fun _ => ⟨[("A", false)]⟩ }
    ⟨fun _ _ => .error 7, [], []⟩ 3 (by decide) rfl (fun _ => "A")
    (fun _ => rfl) (fun _ => rfl) (fun _ => ⟨7, rfl, by decide⟩)

/-- C4: hostname rendering prefers the secure scheme and port whenever
`sslPort` is present and non-zero, otherwise uses the plain scheme and `port`,
and raises the `KeyError` configuration failure when neither port attribute is
present. -/
theorem default_hostname_adapter_selects_port (c : HostConfig) :
    (∀ a sp, c.address = some a → c.sslPort = some sp → sp ≠ 0 →
        default_hostname_adapter c =
          .ok ("https://" ++ a ++ ":" ++ Nat.repr sp))
  ∧ (∀ a p, c.address = some a → c.sslPort.getD 0 = 0 → c.port = some p →
        default_hostname_adapter c =
          .ok ("http://" ++ a ++ ":" ++ Nat.repr p))
  ∧ (c.sslPort = none → c.port = none →
        default_hostname_adapter c = .error PyExc.keyError) := by
  obtain ⟨addr, port, ssl⟩ := c
  refine ⟨?_, ?_, ?_⟩
  · intro a sp ha hs hsp
    subst ha hs
    simp [default_hostname_adapter, hsp]
  · intro a p ha hs hp
    subst ha hp
    cases ssl with
    | none => simp [default_hostname_adapter]
    | some s =>
      simp at hs
      subst hs
      simp [default_hostname_adapter]
  · intro hs hp
    subst hs hp
    simp [default_hostname_adapter]

/-- C4 witness: a descriptor with `sslPort = 8443` and `port = 8080` renders
the secure scheme on port 8443; with `sslPort` absent it renders the plain
scheme on port 8080; with both port attributes absent it raises `KeyError`. -/
theorem default_hostname_adapter_selects_port_witness :
    ((⟨some "h", some 8080, some 8443⟩ : HostConfig).sslPort = some 8443 ∧
     default_hostname_adapter ⟨some "h", some 8080, some 8443⟩ =
       .ok ("https://" ++ "h" ++ ":" ++ Nat.repr 8443))
  ∧ (default_hostname_adapter ⟨some "h", some 8080, none⟩ =
       .ok ("http://" ++ "h" ++ ":" ++ Nat.repr 8080))
  ∧ (default_hostname_adapter ⟨some "h", none, none⟩ =
       .error PyExc.keyError) := by
  refine ⟨⟨rfl, ?_⟩, ?_, ?_⟩
  · exact (default_hostname_adapter_selects_port
      ⟨some "h", some 8080, some 8443⟩).1 "h" 8443 rfl rfl (by decide)
  · exact (default_hostname_adapter_selects_port
      ⟨some "h", some 8080, none⟩).2.1 "h" 8080 rfl rfl rfl
  · exact (default_hostname_adapter_selects_port
      ⟨some "h", none, none⟩).2.2 rfl rfl

/-- C5: on a backend without push-notification support, every `get_host()`
call raises `AttributeError` instead of performing the staleness comparison:
the source reads `self._last_udpated`, a misspelling of the only assigned
time-stamp attribute `_last_updated`, so the attribute lookup fails before the
threshold is ever consulted and before any host is yielded. This contradicts
the claim, under which the call compares the elapsed time against
`update_threshold` and yields a host. -/
theorem get_host_without_watching_raises_attribute_error
    (p : BackendServiceProvider) (now : Nat)
    (h : p.backend.supports_watching = false) :
    p.get_host now = .error PyExc.attributeError := by
  have hname : ("_last_udpated" : String) ≠ "_last_updated" := by decide
  unfold BackendServiceProvider.get_host BackendServiceProvider.getattrTime
  simp [h, hname]

/-- C5 witness: a freshly constructed provider over a concrete non-watching
backend raises `AttributeError` on its first `get_host()` call. -/
theorem get_host_without_watching_raises_attribute_error_witness :
    (BackendServiceProvider.init "svc"
      { supports_watching := false, update_threshold := 30,
        get_children := fun _ => ["a"],
        get_node := fun _ => ⟨some "h", some 80, none⟩ }
      (fun l => l)).backend.supports_watching = false ∧
    (BackendServiceProvider.init "svc"
      { supports_watching := false, update_threshold := 30,
        get_children := fun _ => ["a"],
        get_node := fun _ => ⟨some "h", some 80, none⟩ }
      (fun l => l)).get_host 100 = .error PyExc.attributeError := by
  refine ⟨rfl, ?_⟩
  exact get_host_without_watching_raises_attribute_error
    (BackendServiceProvider.init "svc"
      { supports_watching := false, update_threshold := 30,
        get_children := fun _ => ["a"],
        get_node := fun _ => ⟨some "h", some 80, none⟩ }
      (fun l => l)) 100 rfl

/-- C6 counterexample: two known breakers, host `A`'s open and host `B`'s
closed — so not every known breaker is open, exactly the claim's side
condition — backoff configured (`backoff = 1`) and two attempts. Attempt 1
against `A` is skipped on a caught `CircuitOpenError`, and the run sleeps for
backoff right after that skipped attempt — the backoff statement sits after
the `try` block and runs on the circuit-open path too — refuting the claim
that such an attempt proceeds to the next attempt without sleeping. -/
theorem circuit_open_skip_then_sleep_counterexample :
    (∃ c ∈ ([("A", true), ("B", false)] : List (String × Bool)), c.2 = false) ∧
    retry
      { max_tries := 2, backoff := some 1, send_host := false,
        error_types := [],
        getHost := fun _ => .ok "A",
        breakerOpen := fun _ h => decide (h = "A"),
        breakers := fun _ => ⟨[("A", true), ("B", false)]⟩ }
      ⟨fun _ _ => .ok (PyVal.int 0), [], []⟩ =
    (.error PyExc.MaxRetriesReached,
     [Event.circuitOpenSkip 1 "A", Event.sleepBackoff 1,
      Event.circuitOpenSkip 2 "A"]) ∧
    Event.sleepBackoff 1 ∈ (retry
      { max_tries := 2, backoff := some 1, send_host := false,
        error_types := [],
        getHost := fun _ => .ok "A",
        breakerOpen := fun _ h => decide (h = "A"),
        breakers := fun _ => ⟨[("A", true), ("B", false)]⟩ }
      ⟨fun _ _ => .ok (PyVal.int 0), [], []⟩).2 := by
  exact ⟨by decide, rfl, by decide⟩

/-- C6 amended: an attempt skipped because its host's breaker was open (a
caught `CircuitOpenError`, with not every known breaker open — hypothesis
`h5`) proceeds to the next attempt without raising, but when a backoff is
configured (truthy) and the attempt was not the final one, the loop sleeps
for the backoff duration before the next attempt, exactly as after a
countable failure. -/
theorem circuit_open_skip_sleeps_before_next_attempt (env : RetryEnv)
    (r : Retriable) (i : Nat) (rest : List Nat) (host : String)
    (h1 : env.getHost i = .ok host) (h2 : env.breakerOpen i host = true)
    (h3 : backoffTruthy env.backoff = true) (h4 : i < env.max_tries)
    (h5 : ∃ c ∈ (env.breakers i).circuits, c.2 = false) :
    retryGo env r (i :: rest) =
      ((retryGo env r rest).1,
       Event.circuitOpenSkip i host :: Event.sleepBackoff i ::
         (retryGo env r rest).2) := by
  clear h5
  simp [retryGo, h1, h2, pyTruthy_all_closed, sleepEvents, h3, h4]

/-- C6 amended witness: attempt 1 of the counterexample run above (breaker of
`A` open, breaker of `B` closed, so not every known breaker is open), taken
one loop step at a time: the skipped attempt is followed by the backoff sleep
and then the rest of the loop. -/
theorem circuit_open_skip_sleeps_before_next_attempt_witness :
    ({ max_tries := 2, backoff := some 1, send_host := false,
       error_types := [],
       getHost := fun _ => .ok "A",
       breakerOpen := fun _ h => decide (h = "A"),
       breakers := fun _ => ⟨[("A", true), ("B", false)]⟩ } :
         RetryEnv).getHost 1 = .ok "A" ∧
    retryGo
      { max_tries := 2, backoff := some 1, send_host := false,
        error_types := [],
        getHost := fun _ => .ok "A",
        breakerOpen := fun _ h => decide (h = "A"),
        breakers := fun _ => ⟨[("A", true), ("B", false)]⟩ }
      ⟨fun _ _ => .ok (PyVal.int 0), [], []⟩ [1, 2] =
      ((retryGo
          { max_tries := 2, backoff := some 1, send_host := false,
            error_types := [],
            getHost := fun _ => .ok "A",
            breakerOpen := fun _ h => decide (h = "A"),
            breakers := fun _ => ⟨[("A", true), ("B", false)]⟩ }
          ⟨fun _ _ => .ok (PyVal.int 0), [], []⟩ [2]).1,
       Event.circuitOpenSkip 1 "A" :: Event.sleepBackoff 1 ::
         (retryGo
            { max_tries := 2, backoff := some 1, send_host := false,
              error_types := [],
              getHost := fun _ => .ok "A",
              breakerOpen := fun _ h => decide (h = "A"),
              breakers := fun _ => ⟨[("A", true), ("B", false)]⟩ }
            ⟨fun _ _ => .ok (PyVal.int 0), [], []⟩ [2]).2) := by
  refine ⟨rfl, ?_⟩
  exact circuit_open_skip_sleeps_before_next_attempt
    { max_tries := 2, backoff := some 1, send_host := false,
      error_types := [],
      getHost := fun _ => .ok "A",
      breakerOpen := fun _ h => decide (h = "A"),
      breakers := fun _ => ⟨[("A", true), ("B", false)]⟩ }
    ⟨fun _ _ => .ok (PyVal.int 0), [], []⟩ 1 [2] "A" rfl rfl rfl (by decide)
    ⟨("B", false), by decide, rfl⟩

/-- C7: with an empty current generation, the pool iterator's `next` raises
the substituted `NoHostsAvailableException` (the provider constructs its
iterator with that class in place of `StopIteration`), and an attempt of the
retry loop whose host fetch raises `NoHostsAvailableException` propagates it
at once: the fetch happens before the `try` block, no handler matches, the
result is that error and the run records no further event — no later attempt
is consumed. -/
theorem empty_generation_no_hosts_propagates
    (t : UpdateableIterator HostConfig) (hempty : t.items = [])
    (hexc : t.stop_exc = PyExc.NoHostsAvailableException)
    (env : RetryEnv) (r : Retriable) (i : Nat) (rest : List Nat)
    (hg : env.getHost i = .error PyExc.NoHostsAvailableException) :
    t.next = .error PyExc.NoHostsAvailableException ∧
    retryGo env r (i :: rest) =
      (.error PyExc.NoHostsAvailableException, []) := by
  constructor
  · unfold UpdateableIterator.next
    split
    · rw [hexc]
    · rename_i x xs hcons
      rw [hempty] at hcons
      cases hcons
  · simp [retryGo, hg]

/-- C7 witness: a freshly built empty iterator with the provider's exception
class, and a one-attempt loop whose host fetch raises
`NoHostsAvailableException`, behave as the theorem states. -/
theorem empty_generation_no_hosts_propagates_witness :
    (UpdateableIterator.init ([] : List HostConfig)
        PyExc.NoHostsAvailableException).next =
      .error PyExc.NoHostsAvailableException ∧
    retryGo
      { max_tries := 3, backoff := none, send_host := false, error_types := [],
        getHost := fun _ => .error PyExc.NoHostsAvailableException,
        breakerOpen := fun _ _ => false,
        breakers := fun _ => ⟨[]⟩ }
      ⟨fun _ _ => .ok (PyVal.int 0), [], []⟩ [1, 2, 3] =
      (.error PyExc.NoHostsAvailableException, []) := by
  exact empty_generation_no_hosts_propagates
    (UpdateableIterator.init [] PyExc.NoHostsAvailableException) rfl rfl
    { max_tries := 3, backoff := none, send_host := false, error_types := [],
      getHost := fun _ => .error PyExc.NoHostsAvailableException,
      breakerOpen := fun _ _ => false,
      breakers := fun _ => ⟨[]⟩ }
    ⟨fun _ _ => .ok (PyVal.int 0), [], []⟩ 1 [2, 3] rfl

/-- C8: an operation error whose kind is not in the configured countable set
propagates out of `retry` from the very attempt that raised it: the loop step
for that attempt ends with that error as the result, the operation having been
invoked exactly there, with no backoff sleep after it and no later attempt
(the remaining attempt indices are never consumed, whatever they are). -/
theorem opaque_error_propagates_immediately (env : RetryEnv) (r : Retriable)
    (i : Nat) (rest : List Nat) (host : String) (k : Nat)
    (h1 : env.getHost i = .ok host) (h2 : env.breakerOpen i host = false)
    (h3 : (r.call (attemptKwargs env host)).1 = .error k)
    (h4 : k ∉ env.error_types) :
    retryGo env r (i :: rest) =
      (.error (PyExc.opError k), [Event.invoke i host]) := by
  simp [retryGo, h1, h2, h3, h4]

/-- C8 witness: an operation raising kind `9` with countable set `[7]`, a
backoff configured and two attempts remaining, propagates `opError 9` from
attempt 1 with no sleep and no further invocation. -/
theorem opaque_error_propagates_immediately_witness :
    (9 ∉ ([7] : List Nat)) ∧
    retryGo
      { max_tries := 3, backoff := some 1, send_host := false,
        error_types := [7],
        getHost := fun _ => .ok "A",
        breakerOpen := fun _ _ => false,
        breakers := fun _ => ⟨[("A", false)]⟩ }
      ⟨fun _ _ => .error 9, [], []⟩ [1, 2, 3] =
      (.error (PyExc.opError 9), [Event.invoke 1 "A"]) := by
  refine ⟨by decide, ?_⟩
  exact opaque_error_propagates_immediately
    { max_tries := 3, backoff := some 1, send_host := false,
      error_types := [7],
      getHost := fun _ => .ok "A",
      breakerOpen := fun _ _ => false,
      breakers := fun _ => ⟨[("A", false)]⟩ }
    ⟨fun _ _ => .error 9, [], []⟩ 1 [2, 3] "A" 9 rfl rfl rfl (by decide)

/-- C9: relation between using `retry` as a decorator and passing a
`Retriable` through `retry` directly, for the same `max_tries`, `backoff` and
`send_host`. Raised errors agree, but the decorator's `wrapper` executes
`self.retry(_retriable, ...)` as a statement without returning it, so on every
successful run — whatever value the direct invocation returns — the decorated
call returns `None`. The claim's required equality of results therefore fails
whenever the operation succeeds with any value other than `None`. -/
theorem retryDecoratedCall_discards_result (env : RetryEnv)
    (func : List PyVal → Kwargs → Except Nat PyVal)
    (args : List PyVal) (kwargs : Kwargs) :
    (∀ e, (retryDecoratedCall env func args kwargs).1 = .error e ↔
          (retry env (Retriable.mk func args kwargs)).1 = .error e)
  ∧ (∀ v, (retry env (Retriable.mk func args kwargs)).1 = .ok v →
          (retryDecoratedCall env func args kwargs).1 = .ok PyVal.none) := by
  unfold retryDecoratedCall
  constructor
  · intro e
    cases h : (retry env (Retriable.mk func args kwargs)).1 with
    | error e2 => simp [h, Except.map]
    | ok v => simp [h, Except.map]
  · intro v h
    simp [h, Except.map]

/-- C9 witness: with one host, a closed breaker and an operation returning
`42`, the direct `Retriable`-plus-`retry` invocation returns `42` while the
decorator-wrapped call returns `None`, so the two disagree on the result. -/
theorem retryDecoratedCall_discards_result_witness :
    (retry
      { max_tries := 3, backoff := none, send_host := false, error_types := [],
        getHost := fun _ => .ok "A",
        breakerOpen := fun _ _ => false,
        breakers := fun _ => ⟨[("A", false)]⟩ }
      (Retriable.mk (fun _ _ => .ok (PyVal.int 42)) [] [])).1 =
        .ok (PyVal.int 42) ∧
    (retryDecoratedCall
      { max_tries := 3, backoff := none, send_host := false, error_types := [],
        getHost := fun _ => .ok "A",
        breakerOpen := fun _ _ => false,
        breakers := fun _ => ⟨[("A", false)]⟩ }
      (fun _ _ => .ok (PyVal.int 42)) [] []).1 = .ok PyVal.none ∧
    PyVal.int 42 ≠ PyVal.none := by
  refine ⟨rfl, ?_, by decide⟩
  exact (retryDecoratedCall_discards_result
    { max_tries := 3, backoff := none, send_host := false, error_types := [],
      getHost := fun _ => .ok "A",
      breakerOpen := fun _ _ => false,
      breakers := fun _ => ⟨[("A", false)]⟩ }
    (fun _ _ => .ok (PyVal.int 42)) [] []).2 (PyVal.int 42) rfl

/-- C10: invoking a `Retriable` any number of times, with an arbitrary
override dictionary per invocation and the object state threaded through the
calls, leaves the stored function, positional arguments and keyword arguments
unchanged, and each invocation calls the underlying function with the
originally captured positional arguments and the originally captured keyword
arguments merged with only that invocation's overrides. -/
theorem retriable_callSeq_frame (r : Retriable) (nks : List Kwargs) :
    (r.callSeq nks).2 = r ∧
    (r.callSeq nks).1 =
      nks.map (fun nk => r.func r.args (kwUpdate r.kwargs nk)) := by
  induction nks with
  | nil => exact ⟨rfl, rfl⟩
  | cons nk rest ih =>
    constructor
    · show ((r.call nk).2.callSeq rest).2 = r
      exact ih.1
    · show (r.call nk).1 :: ((r.call nk).2.callSeq rest).1 = _
      rw [List.map_cons]
      exact congrArg₂ (· :: ·) rfl ih.2
